import Mathlib

/-!
Shallow embedding, in Lean 4, of the client-side logic of the `dmeim.github.io`
single-page site (`src/app.js`): the tool-catalog loader, the category
derivation from tags, the theme manager (initial theme, `applyTheme`,
media-query change handler), the hash router, and the filter engine
(`toggleTag`, `addTag`, `updateSearchQuery`, `clearAllFilters`,
`updateFilteredTools`).  Browser effects (DOM, `localStorage`, `fetch`,
`history`) are modelled as explicit state records and explicit inputs.
Strings are Lean `String`s; the JavaScript string operations used by the
code (`includes`, `toLowerCase`, `trim`, truthiness, default sort order)
are modelled at the character-list level so that all definitions are
executable by the kernel.
-/

namespace App

/-- JavaScript string truthiness: the empty string is falsy, every other
string is truthy.  Models conditions such as `if (tag)`. -/
def jsTruthy (s : String) : Bool := s != ""

/-- Truthiness of a nullable string (`localStorage.getItem` and
`getAttribute` return `null` when absent). -/
def jsTruthyOpt : Option String → Bool
  | none => false
  | some s => jsTruthy s

/-- JavaScript `a || b` on a nullable string `a`: yields `a` when `a` is
truthy (non-null and non-empty), else the default `b`. -/
def jsOrDefault (s : Option String) (dflt : String) : String :=
  match s with
  | some v => if jsTruthy v then v else dflt
  | none => dflt

/-- JavaScript `String.prototype.includes`: substring containment. -/
def jsIncludes (s sub : String) : Bool := decide (sub.data <:+: s.data)

/-- JavaScript `String.prototype.toLowerCase`, character by character. -/
def jsToLower (s : String) : String := ⟨s.data.map Char.toLower⟩

/-- JavaScript `String.prototype.trim`: strip leading and trailing
whitespace. -/
def jsTrim (s : String) : String :=
  ⟨((s.data.dropWhile Char.isWhitespace).reverse.dropWhile Char.isWhitespace).reverse⟩

/-- Lexicographic comparison of character lists by code point, the order
used by JavaScript `Array.prototype.sort` with the default comparator. -/
def charListLe : List Char → List Char → Bool
  | [], _ => true
  | _ :: _, [] => false
  | a :: as, b :: bs =>
    if a.toNat < b.toNat then true
    else if b.toNat < a.toNat then false
    else charListLe as bs

/-- String comparison used when sorting the tag universe. -/
def strLe (a b : String) : Bool := charListLe a.data b.data

/-- Sorting a list of strings, modelling `Array.prototype.sort()`. -/
def sortStrings (l : List String) : List String :=
  l.insertionSort (fun a b => strLe a b = true)

/-- A raw record of `utilities.json`, restricted to the fields `app.js`
consumes: `{name, tags, description, url_project, url_git}` with
`url_git` optional. -/
structure RawTool where
  name : String
  tags : List String
  description : String
  url_project : String
  url_git : Option String
  deriving Repr, DecidableEq

/-- The normalized tool record built by `loadUtilitiesData`. -/
structure Tool where
  id : Nat
  name : String
  category : String
  tags : List String
  description : String
  url_project : String
  url_git : Option String
  deriving Repr, DecidableEq

/-- Category derivation `getCategoryFromTags` (src/app.js:35-47): an
ordered first-match rule over tag membership, defaulting to
"Privacy & Security". -/
def getCategoryFromTags (tags : List String) : String :=
  if tags.contains "vpn" then "VPN & Networking"
  else if tags.contains "messaging" || tags.contains "chat" then "Communication"
  else if tags.contains "password-manager" then "Password Management"
  else if tags.contains "email" then "Email"
  else if tags.contains "storage" || tags.contains "cloud" then "Storage & Sync"
  else if tags.contains "browser" then "Browsers"
  else if tags.contains "os" then "Operating Systems"
  else if tags.contains "search-engine" then "Search"
  else if tags.contains "adblock" || tags.contains "tracker-blocker" then "Browser Extensions"
  else if tags.contains "email-alias" then "Email Privacy"
  else "Privacy & Security"

/-- The fixed ordered rule list of the specification: each rule is the
list of tags that trigger it together with the category it yields. -/
def specCategoryRules : List (List String × String) :=
  [ (["vpn"], "VPN & Networking"),
    (["messaging", "chat"], "Communication"),
    (["password-manager"], "Password Management"),
    (["email"], "Email"),
    (["storage", "cloud"], "Storage & Sync"),
    (["browser"], "Browsers"),
    (["os"], "Operating Systems"),
    (["search-engine"], "Search"),
    (["adblock", "tracker-blocker"], "Browser Extensions"),
    (["email-alias"], "Email Privacy") ]

/-- First rule of a rule list whose trigger tags meet `tags`, defaulting
to "Privacy & Security".  This is the specification's wording of the
category derivation ("testing tag membership against a fixed ordered rule
list and returning the first match"), to be compared with
`getCategoryFromTags`. -/
def firstMatchCategory (tags : List String) : List (List String × String) → String
  | [] => "Privacy & Security"
  | rule :: rest =>
    if rule.1.any (fun t => tags.contains t) then rule.2
    else firstMatchCategory tags rest

/-- The specification-side category function. -/
def specCategoryFromTags (tags : List String) : String :=
  firstMatchCategory tags specCategoryRules

/-- Outcome of the one `fetch('./utilities.json')` call: a transport
error, or a response carrying its `ok` flag and the result of
`response.json()` (a parse error or the parsed array of raw records). -/
inductive FetchOutcome where
  | networkError (msg : String)
  | response (ok : Bool) (body : Except String (List RawTool))
  deriving Repr

/-- The record transform applied to each raw record at position `index`
(src/app.js:14-22): sequential 1-based id and derived category. -/
def toToolRecord (index : Nat) (tool : RawTool) : Tool :=
  { id := index + 1
    name := tool.name
    category := getCategoryFromTags tool.tags
    tags := tool.tags
    description := tool.description
    url_project := tool.url_project
    url_git := tool.url_git }

/-- Loader `loadUtilitiesData` (src/app.js:5-32): a non-`ok` response
makes the code throw into its `catch`, which yields `[]`; a transport or
parse failure likewise yields `[]`; on success each raw record is mapped
through `toToolRecord` with its document-order index.  The returned list
is the new value of `TOOLS_DATA`. -/
def loadUtilitiesData : FetchOutcome → List Tool
  | .networkError _ => []
  | .response ok body =>
    if ok then
      match body with
      | .ok data => data.mapIdx toToolRecord
      | .error _ => []
    else []

/-! ## Theme manager -/

/-- The observable state the `ThemeManager` manipulates: its `this.theme`
field, the `data-theme` attribute applied to the document, and the
`localStorage` entry under key "theme". -/
structure ThemeState where
  theme : String
  documentTheme : Option String
  storage : Option String
  deriving Repr, DecidableEq

/-- Initial theme resolution `getInitialTheme` (src/app.js:63-75):
`savedTheme || (systemDark ? 'dark' : 'light')`. -/
def getInitialTheme (savedTheme : Option String) (systemDark : Bool) : String :=
  jsOrDefault savedTheme (if systemDark then "dark" else "light")

/-- Applying a theme, `applyTheme` (src/app.js:87-107): records
`this.theme`, sets the document attribute, and writes the value to
storage under key "theme".  (Icon and git-icon refreshes touch no state
modelled here.) -/
def applyTheme (st : ThemeState) (theme : String) : ThemeState :=
  { st with theme := theme, documentTheme := some theme, storage := some theme }

/-- Theme toggling `toggleTheme` (src/app.js:175-179). -/
def toggleTheme (st : ThemeState) : ThemeState :=
  applyTheme st (if st.theme == "dark" then "light" else "dark")

/-- Manual `setTheme` (src/app.js:182-189): applies only valid themes. -/
def setTheme (st : ThemeState) (theme : String) : ThemeState :=
  if theme == "dark" || theme == "light" then applyTheme st theme else st

/-- The media-query change handler registered by `setupMediaQuery`
(src/app.js:163-173): re-applies the system theme only when
`localStorage.getItem('theme')` is falsy. -/
def mediaQueryChange (st : ThemeState) (sysDark : Bool) : ThemeState :=
  if !(jsTruthyOpt st.storage) then
    applyTheme st (if sysDark then "dark" else "light")
  else st

/-- Construction plus `init` (src/app.js:50-85): resolve the initial
theme from the given storage content and system preference, then apply
it. -/
def newThemeManager (storage : Option String) (systemDark : Bool) : ThemeState :=
  let theme := getInitialTheme storage systemDark
  applyTheme { theme := theme, documentTheme := none, storage := storage } theme

/-- Events that can reach the theme manager after initialization. -/
inductive ThemeEvent where
  | toggleClick
  | mediaChange (sysDark : Bool)
  | setThemeCall (theme : String)
  deriving Repr, DecidableEq

/-- One event step of the theme manager. -/
def themeStep (st : ThemeState) : ThemeEvent → ThemeState
  | .toggleClick => toggleTheme st
  | .mediaChange m => mediaQueryChange st m
  | .setThemeCall t => setTheme st t

/-- Running a sequence of theme events. -/
def runThemeEvents (st : ThemeState) (evs : List ThemeEvent) : ThemeState :=
  evs.foldl themeStep st

/-! ## Filter engine -/

/-- The `FilterManager` fields the filter operations manipulate
(src/app.js:199-206).  The JavaScript `Set` of selected tags is modelled
as a `Finset`: only membership is ever consumed (via `Set.has` and
`Array.from(...).every`). -/
structure FilterState where
  selectedTags : Finset String
  searchQuery : String
  filteredTools : List Tool
  deriving DecidableEq

/-- Recomputation `updateFilteredTools` (src/app.js:261-285): start from
the full catalog; when tags are selected keep the tools carrying every
selected tag; when the search query is truthy keep the tools whose
lowercased name or description contains it. -/
def updateFilteredTools (catalog : List Tool) (fm : FilterState) : FilterState :=
  let filtered := catalog
  let filtered :=
    if fm.selectedTags.card > 0 then
      filtered.filter (fun tool => decide (∀ t ∈ fm.selectedTags, t ∈ tool.tags))
    else filtered
  let filtered :=
    if jsTruthy fm.searchQuery then
      filtered.filter (fun tool =>
        jsIncludes (jsToLower tool.name) fm.searchQuery
          || jsIncludes (jsToLower tool.description) fm.searchQuery)
    else filtered
  { fm with filteredTools := filtered }

/-- Tag toggling `toggleTag` (src/app.js:225-232): remove if present,
add if absent, then recompute. -/
def toggleTag (catalog : List Tool) (fm : FilterState) (tag : String) : FilterState :=
  let selected :=
    if tag ∈ fm.selectedTags then fm.selectedTags.erase tag
    else insert tag fm.selectedTags
  updateFilteredTools catalog { fm with selectedTags := selected }

/-- Tag addition `addTag` (src/app.js:234-244): add only a truthy tag
that is not yet selected, then recompute.  (The dropdown reset touches no
state modelled here.) -/
def addTag (catalog : List Tool) (fm : FilterState) (tag : String) : FilterState :=
  if jsTruthy tag && !(decide (tag ∈ fm.selectedTags)) then
    updateFilteredTools catalog { fm with selectedTags := insert tag fm.selectedTags }
  else fm

/-- Search update `updateSearchQuery` (src/app.js:246-249):
`query.toLowerCase().trim()`, then recompute. -/
def updateSearchQuery (catalog : List Tool) (fm : FilterState) (query : String) : FilterState :=
  updateFilteredTools catalog { fm with searchQuery := jsTrim (jsToLower query) }

/-- Reset `clearAllFilters` (src/app.js:251-259): empty the selected
tags and the search query, then recompute.  (Clearing the DOM input
controls touches no state modelled here.) -/
def clearAllFilters (catalog : List Tool) (fm : FilterState) : FilterState :=
  updateFilteredTools catalog { fm with selectedTags := ∅, searchQuery := "" }

/-- Tag universe extraction `extractAllTags` (src/app.js:217-223):
collect every tag of every loaded tool into a set, then sort. -/
def extractAllTags (catalog : List Tool) : List String :=
  sortStrings (catalog.flatMap Tool.tags).dedup

/-- State of the tools page after `FilterManager.initialize`
(src/app.js:208-215): the loaded `TOOLS_DATA`, the tag universe, and a
filter state whose visible list starts as a copy of the catalog. -/
structure ToolsPageState where
  toolsData : List Tool
  allTags : List String
  fm : FilterState

/-- Construction plus `initialize` of the filter manager for a given
fetch outcome. -/
def initializeFilterManager (outcome : FetchOutcome) : ToolsPageState :=
  let toolsData := loadUtilitiesData outcome
  { toolsData := toolsData
    allTags := extractAllTags toolsData
    fm := { selectedTags := ∅, searchQuery := "", filteredTools := toolsData } }

/-- The item-count line of `renderFilterUI` (src/app.js:296): the string
"Showing X of Y items". -/
def itemCountText (st : ToolsPageState) : String :=
  "Showing " ++ toString st.fm.filteredTools.length ++ " of "
    ++ toString st.toolsData.length ++ " items"

/-- Repository icon choice `getGitIcon` (src/app.js:367-378), keyed on
the document theme attribute and the repository URL host substring. -/
def getGitIcon (documentTheme : Option String) (gitUrl : String) : String :=
  let currentTheme := jsOrDefault documentTheme "light"
  let isDark := currentTheme == "dark"
  if jsIncludes gitUrl "github.com" then
    if isDark then "./resources/github-white.png" else "./resources/github.png"
  else if jsIncludes gitUrl "gitlab" then
    if isDark then "./resources/gitlab-white.png" else "./resources/gitlab.png"
  else "./resources/git.png"

/-- One tool card of `renderTools` (src/app.js:345-365), with the markup
reduced to its element structure. -/
def toolCardHTML (documentTheme : Option String) (tool : Tool) : String :=
  "<div class=\"tool-card\" data-tags=\"" ++ String.intercalate "," tool.tags
    ++ "\"><h3 class=\"tool-name\">" ++ tool.name
    ++ "</h3><p class=\"card-description\">" ++ tool.description
    ++ "</p><div class=\"tool-tags\">"
    ++ String.join (tool.tags.map (fun tag => "<span class=\"tool-tag\">" ++ tag ++ "</span>"))
    ++ "</div><div class=\"tool-links\"><a href=\"" ++ tool.url_project
    ++ "\" class=\"tool-link site-link\" target=\"_blank\" rel=\"noopener\">Site</a>"
    ++ (if jsTruthyOpt tool.url_git then
          let g := tool.url_git.getD ""
          "<a href=\"" ++ g
            ++ "\" class=\"tool-link git-link\" target=\"_blank\" rel=\"noopener\"><img src=\""
            ++ getGitIcon documentTheme g
            ++ "\" alt=\"Git Repository\" class=\"git-icon\"></a>"
        else "")
    ++ "</div></div>"

/-- The tools list markup, `renderTools`: the concatenation of the card
markup of every visible tool (`.map(...).join('')`). -/
def renderToolsHTML (documentTheme : Option String) (fm : FilterState) : String :=
  String.join (fm.filteredTools.map (toolCardHTML documentTheme))

/-! ## Specification-side filter predicates (for the refinement claim) -/

/-- Specification predicate: the tool's tag sequence contains every
selected tag (AND semantics). -/
def specTagKeep (selectedTags : Finset String) (tool : Tool) : Bool :=
  decide (∀ t ∈ selectedTags, t ∈ tool.tags)

/-- Specification predicate: the tool's name or description contains the
search text as a case-insensitive substring. -/
def specSearchKeep (searchText : String) (tool : Tool) : Bool :=
  jsIncludes (jsToLower tool.name) (jsToLower searchText)
    || jsIncludes (jsToLower tool.description) (jsToLower searchText)

/-- The visible list as the specification words it: the catalog filtered
once by the conjunction of the two predicates, each active only when its
filter component is set. -/
def specVisibleList (catalog : List Tool) (selectedTags : Finset String)
    (searchText : String) : List Tool :=
  catalog.filter (fun tool =>
    (if selectedTags ≠ ∅ then specTagKeep selectedTags tool else true)
      && (if searchText ≠ "" then specSearchKeep searchText tool else true))

/-- The symmetric add/remove step on the selected-tags set, as the
specification words the toggle. -/
def specToggle (s : Finset String) (tag : String) : Finset String :=
  if tag ∈ s then s.erase tag else insert tag s

/-- Running a sequence of `toggleTag` calls. -/
def runToggles (catalog : List Tool) (fm : FilterState) (tags : List String) : FilterState :=
  tags.foldl (toggleTag catalog) fm

/-- A filter operation that mutates the selected-tags set. -/
inductive FilterOp where
  | toggle (tag : String)
  | add (tag : String)
  deriving Repr, DecidableEq

/-- The tag argument of a filter operation. -/
def FilterOp.tagArg : FilterOp → String
  | .toggle t => t
  | .add t => t

/-- Applying one filter operation. -/
def applyFilterOp (catalog : List Tool) (fm : FilterState) : FilterOp → FilterState
  | .toggle tag => toggleTag catalog fm tag
  | .add tag => addTag catalog fm tag

/-- Running a sequence of filter operations. -/
def runFilterOps (catalog : List Tool) (fm : FilterState) (ops : List FilterOp) : FilterState :=
  ops.foldl (applyFilterOp catalog) fm

/-! ## Router -/

/-- The fixed route table keys (src/app.js:408-413). -/
def routes : List String := ["home", "projects", "profiles", "tools"]

/-- Property names every JavaScript object literal inherits from
`Object.prototype` (ECMA-262 section 20.2.3 plus the Annex B.2.2
accessors).  `this.routes` is an object literal, so a property lookup
with one of these names traverses the prototype chain and yields a
truthy value even though the name is not a key of the route table. -/
def objectProtoKeys : List String :=
  ["constructor", "hasOwnProperty", "isPrototypeOf", "propertyIsEnumerable",
   "toLocaleString", "toString", "valueOf", "__defineGetter__",
   "__defineSetter__", "__lookupGetter__", "__lookupSetter__", "__proto__"]

/-- Truthiness of the JavaScript lookup `this.routes[page]`: true for the
four own keys (whose values are methods, hence truthy) and for every
`Object.prototype`-inherited property name. -/
def routesLookupTruthy (page : String) : Bool :=
  routes.contains page || objectProtoKeys.contains page

/-- The observable state the `Router` manipulates: the current page, the
stack of pushed history fragments, the nav link carrying the active
styling, and the route whose markup fills the content container. -/
structure RouterState where
  currentPage : String
  historyStack : List String
  activeNavPage : Option String
  renderedPage : Option String
  deriving Repr, DecidableEq

/-- Navigation `navigateTo` (src/app.js:471-478): the guard is the
truthiness of the object lookup `this.routes[page]`, so any name with a
truthy lookup — a table key or an `Object.prototype`-inherited name —
becomes current, is pushed onto the history, gets the active styling,
and has its renderer invoked (`renderedPage` records the name handed to
`renderPage`); any other name does nothing. -/
def navigateTo (st : RouterState) (page : String) : RouterState :=
  if routesLookupTruthy page then
    { currentPage := page
      historyStack := st.historyStack ++ [page]
      activeNavPage := some page
      renderedPage := some page }
  else st

/-- Route resolution `handleRoute` (src/app.js:480-489):
`window.location.hash.slice(1) || 'home'`, then the same truthy
`this.routes[hash]` lookup: either render the resolved name (without a
history push) or navigate to "home". -/
def handleRoute (st : RouterState) (locationHash : String) : RouterState :=
  let hash := if jsTruthy (locationHash.drop 1) then locationHash.drop 1 else "home"
  if routesLookupTruthy hash then
    { st with currentPage := hash, activeNavPage := some hash, renderedPage := some hash }
  else
    navigateTo st "home"

/-! ## Concrete sample data for witnesses and counterexamples -/

/-- A sample raw record carrying the "vpn" tag. -/
def rawVpn : RawTool :=
  { name := "Mullvad VPN"
    tags := ["vpn", "logging-free"]
    description := "Privacy-focused VPN service"
    url_project := "https://mullvad.net"
    url_git := none }

/-- A sample raw record carrying the "chat" tag. -/
def rawChat : RawTool :=
  { name := "Signal"
    tags := ["chat", "e2e"]
    description := "Private messenger"
    url_project := "https://signal.org"
    url_git := none }

/-- The sample catalog obtained by loading the two sample records. -/
def catalogSample : List Tool :=
  loadUtilitiesData (.response true (.ok [rawVpn, rawChat]))

/-- A sample filter state selecting the "vpn" tag. -/
def fmVpn : FilterState :=
  { selectedTags := {"vpn"}, searchQuery := "", filteredTools := [] }

/-- The pristine filter state. -/
def fmEmpty : FilterState :=
  { selectedTags := ∅, searchQuery := "", filteredTools := [] }

/-- A sample filter state with both a selected tag and a search text. -/
def fmBoth : FilterState :=
  { selectedTags := {"vpn"}, searchQuery := "privacy", filteredTools := [] }

/-- A sample router state sitting on the home page. -/
def routerHome : RouterState :=
  { currentPage := "home", historyStack := [], activeNavPage := none, renderedPage := none }

/-- A sample theme-manager state with a persisted "dark" theme. -/
def stPersistedDark : ThemeState :=
  { theme := "dark", documentTheme := some "dark", storage := some "dark" }

/-! ## Shared lemmas -/

theorem jsTruthy_eq_true {s : String} : jsTruthy s = true ↔ s ≠ "" := by
  simp [jsTruthy]

theorem jsTruthy_eq_false {s : String} : jsTruthy s = false ↔ s = "" := by
  simp [jsTruthy]

theorem char_toLower_idem (c : Char) : c.toLower.toLower = c.toLower := by
  unfold Char.toLower
  by_cases h : 65 ≤ c.toNat ∧ c.toNat ≤ 90
  · rw [if_pos h]
    have hv : (c.toNat + 32).isValidChar := Or.inl (by omega)
    have hval : (Char.ofNat (c.toNat + 32)).toNat = c.toNat + 32 := by
      rw [Char.ofNat, dif_pos hv]
      rfl
    rw [hval]
    rw [if_neg (by omega)]
  · rw [if_neg h, if_neg h]

theorem jsToLower_jsTrim_jsToLower (q : String) :
    jsToLower (jsTrim (jsToLower q)) = jsTrim (jsToLower q) := by
  unfold jsToLower jsTrim
  apply congrArg String.mk
  have hfix : ∀ c ∈ ((((q.data.map Char.toLower).dropWhile Char.isWhitespace).reverse.dropWhile
      Char.isWhitespace).reverse), c.toLower = c := by
    intro c hc
    have h1 : c ∈ (q.data.map Char.toLower) := by
      have h2 := List.mem_reverse.mp hc
      have h3 := (List.dropWhile_sublist _).subset h2
      have h4 := List.mem_reverse.mp h3
      exact (List.dropWhile_sublist _).subset h4
    obtain ⟨d, hd, rfl⟩ := List.mem_map.mp h1
    exact char_toLower_idem d
  calc (((((q.data.map Char.toLower).dropWhile Char.isWhitespace).reverse.dropWhile
          Char.isWhitespace).reverse).map Char.toLower)
      = ((((q.data.map Char.toLower).dropWhile Char.isWhitespace).reverse.dropWhile
          Char.isWhitespace).reverse).map id := List.map_congr_left hfix
    _ = _ := List.map_id _

theorem updateSearchQuery_lowercase (catalog : List Tool) (fm : FilterState) (query : String) :
    jsToLower (updateSearchQuery catalog fm query).searchQuery
      = (updateSearchQuery catalog fm query).searchQuery := by
  show jsToLower (jsTrim (jsToLower query)) = jsTrim (jsToLower query)
  exact jsToLower_jsTrim_jsToLower query

theorem jsTruthy_getInitialTheme (storage : Option String) (sysDark : Bool) :
    jsTruthy (getInitialTheme storage sysDark) = true := by
  unfold getInitialTheme jsOrDefault
  cases storage with
  | none => cases sysDark <;> decide
  | some v =>
    cases hv : jsTruthy v with
    | true => simp [hv]
    | false => cases sysDark <;> simp [hv] <;> decide

theorem mediaQueryChange_of_truthy {st : ThemeState} (m : Bool)
    (h : jsTruthyOpt st.storage = true) : mediaQueryChange st m = st := by
  simp [mediaQueryChange, h]

theorem storage_truthy_runThemeEvents (evs : List ThemeEvent) :
    ∀ st : ThemeState, jsTruthyOpt st.storage = true →
      jsTruthyOpt (runThemeEvents st evs).storage = true := by
  induction evs with
  | nil => intro st h; exact h
  | cons ev evs ih =>
    intro st h
    have hstep : jsTruthyOpt (themeStep st ev).storage = true := by
      cases ev with
      | toggleClick =>
        cases h2 : (st.theme == "dark") <;>
          simp [themeStep, toggleTheme, applyTheme, h2, jsTruthyOpt, jsTruthy]
      | mediaChange m =>
        simp only [themeStep, mediaQueryChange_of_truthy m h]
        exact h
      | setThemeCall t =>
        by_cases ht : (t == "dark" || t == "light") = true
        · have : t = "dark" ∨ t = "light" := by
            simpa [Bool.or_eq_true, beq_iff_eq] using ht
          rcases this with h3 | h3 <;> subst h3 <;>
            simp [themeStep, setTheme, applyTheme, jsTruthyOpt, jsTruthy]
        · simpa [themeStep, setTheme, ht] using h
    have : runThemeEvents st (ev :: evs) = runThemeEvents (themeStep st ev) evs := rfl
    rw [this]
    exact ih _ hstep

/-! ## Claim theorems -/

/-- C2: `getInitialTheme` returns the persisted theme whenever one is
present in storage; otherwise it returns "dark" exactly when the system
media query reports dark, and "light" otherwise.  Persisted choice wins
over system preference, which wins over the default "light". -/
theorem getInitialTheme_precedence (t : String) (ht : t = "light" ∨ t = "dark")
    (sysDark : Bool) :
    getInitialTheme (some t) sysDark = t
      ∧ getInitialTheme none true = "dark"
      ∧ getInitialTheme none false = "light" := by
  refine ⟨?_, by decide, by decide⟩
  rcases ht with h | h <;> subst h <;> cases sysDark <;> decide

/-- Witness for C2 at the persisted theme "dark" with a light system
preference. -/
theorem getInitialTheme_precedence_witness :
    ("dark" = "light" ∨ "dark" = "dark")
      ∧ (getInitialTheme (some "dark") false = "dark"
          ∧ getInitialTheme none true = "dark"
          ∧ getInitialTheme none false = "light") :=
  ⟨Or.inr rfl, getInitialTheme_precedence "dark" (Or.inr rfl) false⟩

/-- C3: when a theme value is persisted in storage, a system dark-mode
media-query change event leaves the whole theme state (in particular the
applied theme) unchanged; when no theme is persisted, the handler
re-applies the system theme. -/
theorem mediaQuery_persisted_no_change :
    (∀ (st : ThemeState) (t : String) (m : Bool),
        st.storage = some t → t ≠ "" → mediaQueryChange st m = st)
    ∧ (∀ (st : ThemeState) (m : Bool), st.storage = none →
        mediaQueryChange st m = applyTheme st (if m then "dark" else "light")) := by
  constructor
  · intro st t m hs ht
    refine mediaQueryChange_of_truthy m ?_
    simp [hs, jsTruthyOpt, jsTruthy, ht]
  · intro st m hs
    simp [mediaQueryChange, hs, jsTruthyOpt]

/-- Witness for C3 at a state with persisted theme "dark". -/
theorem mediaQuery_persisted_no_change_witness :
    stPersistedDark.storage = some "dark" ∧ "dark" ≠ ""
      ∧ mediaQueryChange stPersistedDark true = stPersistedDark :=
  ⟨rfl, by decide,
    mediaQuery_persisted_no_change.1 stPersistedDark "dark" true rfl (by decide)⟩

/-- C4: every `applyTheme` call writes its argument to storage; the
initial application performed during construction therefore leaves the
"theme" key set (to a truthy value), and after any sequence of
subsequent events a media-query change is a no-op on the whole state, so
system preference changes never alter the theme after startup. -/
theorem applyTheme_always_persists :
    (∀ (st : ThemeState) (theme : String), (applyTheme st theme).storage = some theme)
    ∧ (∀ (storage : Option String) (sysDark : Bool),
        (newThemeManager storage sysDark).storage
          = some (getInitialTheme storage sysDark))
    ∧ (∀ (storage : Option String) (sysDark : Bool),
        jsTruthyOpt (newThemeManager storage sysDark).storage = true)
    ∧ (∀ (storage : Option String) (sysDark : Bool) (evs : List ThemeEvent) (m : Bool),
        mediaQueryChange (runThemeEvents (newThemeManager storage sysDark) evs) m
          = runThemeEvents (newThemeManager storage sysDark) evs) := by
  have hinit : ∀ (storage : Option String) (sysDark : Bool),
      jsTruthyOpt (newThemeManager storage sysDark).storage = true := by
    intro storage sysDark
    show jsTruthyOpt (some (getInitialTheme storage sysDark)) = true
    simpa [jsTruthyOpt] using jsTruthy_getInitialTheme storage sysDark
  refine ⟨fun st theme => rfl, fun storage sysDark => rfl, hinit, ?_⟩
  intro storage sysDark evs m
  exact mediaQueryChange_of_truthy m
    (storage_truthy_runThemeEvents evs _ (hinit storage sysDark))

theorem getCategoryFromTags_eq_spec (tags : List String) :
    getCategoryFromTags tags = specCategoryFromTags tags := by
  simp only [getCategoryFromTags, specCategoryFromTags, specCategoryRules,
    firstMatchCategory, List.any_cons, List.any_nil, Bool.or_false]

/-- C5: on a successful load each raw record is mapped to a `Tool` with
a sequential 1-based id in document order, and its category is computed
from its tags by the fixed ordered first-match rule of the spec,
defaulting to "Privacy & Security"; tags ["vpn","logging-free"] yield
"VPN & Networking" and tags ["chat","e2e"] yield "Communication". -/
theorem loadSuccess_ids_categories :
    (∀ data : List RawTool,
        loadUtilitiesData (.response true (.ok data)) = data.mapIdx toToolRecord)
    ∧ (∀ (index : Nat) (raw : RawTool),
        (toToolRecord index raw).id = index + 1
          ∧ (toToolRecord index raw).category = getCategoryFromTags raw.tags)
    ∧ (∀ (data : List RawTool) (i : Nat) (h : i < data.length)
        (h2 : i < (loadUtilitiesData (.response true (.ok data))).length),
        (loadUtilitiesData (.response true (.ok data))).get ⟨i, h2⟩
          = toToolRecord i (data.get ⟨i, h⟩))
    ∧ (∀ tags, getCategoryFromTags tags = specCategoryFromTags tags)
    ∧ getCategoryFromTags ["vpn", "logging-free"] = "VPN & Networking"
    ∧ getCategoryFromTags ["chat", "e2e"] = "Communication" := by
  refine ⟨fun data => rfl, fun index raw => ⟨rfl, rfl⟩, ?_,
    getCategoryFromTags_eq_spec, by decide, by decide⟩
  intro data i h h2
  exact List.get_mapIdx data toToolRecord i h h2

/-- Witness for C5: the first sample record gets id 1 and the
"VPN & Networking" category. -/
theorem loadSuccess_ids_categories_witness :
    (loadUtilitiesData (.response true (.ok [rawVpn, rawChat]))).get ⟨0, by decide⟩
      = toToolRecord 0 ([rawVpn, rawChat].get ⟨0, by decide⟩) :=
  loadSuccess_ids_categories.2.2.1 [rawVpn, rawChat] 0 (by decide) (by decide)

/-- C6: every transport failure, non-2xx response, or parse failure of
the catalog fetch resolves to an empty catalog (the loader is total, so
nothing propagates), and the tools page then shows
"Showing 0 of 0 items" over an empty rendered list. -/
theorem loadFailure_empty_catalog :
    (∀ msg, loadUtilitiesData (.networkError msg) = [])
    ∧ (∀ body, loadUtilitiesData (.response false body) = [])
    ∧ (∀ msg, loadUtilitiesData (.response true (.error msg)) = [])
    ∧ (∀ outcome : FetchOutcome, loadUtilitiesData outcome = [] →
        itemCountText (initializeFilterManager outcome) = "Showing 0 of 0 items"
          ∧ ∀ dt, renderToolsHTML dt (initializeFilterManager outcome).fm = "") := by
  refine ⟨fun msg => rfl, fun body => rfl, fun msg => rfl, ?_⟩
  intro outcome h
  constructor
  · simp only [itemCountText, initializeFilterManager, h]
    decide
  · intro dt
    simp only [renderToolsHTML, initializeFilterManager, h, List.map_nil]
    rfl

/-- Witness for C6 at a simulated network error. -/
theorem loadFailure_empty_catalog_witness :
    loadUtilitiesData (.networkError "network down") = []
      ∧ (itemCountText (initializeFilterManager (.networkError "network down"))
            = "Showing 0 of 0 items"
          ∧ ∀ dt, renderToolsHTML dt
              (initializeFilterManager (.networkError "network down")).fm = "") :=
  ⟨rfl, loadFailure_empty_catalog.2.2.2 (.networkError "network down") rfl⟩

/-- C7 counterexample: "constructor" is not in the fixed route table,
yet `this.routes['constructor']` is truthy through the prototype chain,
so `navigateTo` navigates (sets the current route, pushes history,
restyles, renders) instead of being a no-op; likewise fragment
"#toString" makes `handleRoute` set the current route to "toString"
instead of defaulting to "home". -/
theorem navigateTo_proto_key_counterexample :
    routes.contains "constructor" = false
      ∧ navigateTo routerHome "constructor" ≠ routerHome
      ∧ (navigateTo routerHome "constructor").currentPage = "constructor"
      ∧ (navigateTo routerHome "constructor").historyStack = ["constructor"]
      ∧ routes.contains "toString" = false
      ∧ (handleRoute routerHome "#toString").currentPage = "toString" := by decide

/-- C7 amended: `navigateTo` with a route name whose `this.routes`
lookup is falsy — neither a table key nor an `Object.prototype`-inherited
property name — leaves the whole router state unchanged, while a route
in the table becomes current, is pushed onto the history, gets the
active styling, and is rendered; `handleRoute` resolves fragment
"#projects" to "projects" and defaults to "home" when the fragment is
empty or its lookup is falsy. -/
theorem navigateTo_handleRoute_spec :
    (∀ (st : RouterState) (page : String), routesLookupTruthy page = false →
        navigateTo st page = st)
    ∧ (∀ (st : RouterState) (page : String), routes.contains page = true →
        (navigateTo st page).currentPage = page
          ∧ (navigateTo st page).historyStack = st.historyStack ++ [page]
          ∧ (navigateTo st page).activeNavPage = some page
          ∧ (navigateTo st page).renderedPage = some page)
    ∧ (∀ st : RouterState, (handleRoute st "#projects").currentPage = "projects")
    ∧ (∀ (st : RouterState) (locationHash : String),
        routesLookupTruthy (locationHash.drop 1) = false →
        (handleRoute st locationHash).currentPage = "home") := by
  have hhome : routesLookupTruthy "home" = true := by decide
  refine ⟨?_, ?_, ?_, ?_⟩
  · intro st page h
    simp [navigateTo, h]
  · intro st page h
    have h2 : routesLookupTruthy page = true := by
      simp only [routesLookupTruthy, h, Bool.true_or]
    simp [navigateTo, h2]
  · intro st
    have h1 : ("#projects".drop 1) = "projects" := by decide
    have h2 : jsTruthy "projects" = true := by decide
    have h3 : routesLookupTruthy "projects" = true := by decide
    simp [handleRoute, h1, h2, h3]
  · intro st locationHash h
    unfold handleRoute
    by_cases ht : jsTruthy (locationHash.drop 1) = true
    · simp [ht, h, navigateTo, hhome]
    · simp only [Bool.not_eq_true] at ht
      simp [ht, hhome]

/-- Witness for the amended C7: a route with a falsy lookup is a no-op
from the home state, and a fragment with a falsy lookup resolves to
"home". -/
theorem navigateTo_handleRoute_spec_witness :
    navigateTo routerHome "bogus" = routerHome
      ∧ (handleRoute routerHome "#bogus").currentPage = "home" :=
  ⟨navigateTo_handleRoute_spec.1 routerHome "bogus" (by decide),
    navigateTo_handleRoute_spec.2.2.2 routerHome "#bogus" (by decide)⟩

theorem specVisibleList_sublist (catalog : List Tool) (s : Finset String) (q : String) :
    (specVisibleList catalog s q).Sublist catalog :=
  List.filter_sublist catalog

theorem specVisibleList_trivial (catalog : List Tool) :
    specVisibleList catalog ∅ "" = catalog := by
  simp [specVisibleList, List.filter_true]

/-- C1: the recomputed visible list equals the catalog filtered once by
the conjunction of the spec's two predicates (tag-AND and
case-insensitive substring search), it is a sublist of the catalog (so
catalog order is preserved), and with no selected tags and empty search
text it is the full catalog.  The hypothesis records that the stored
search query is already lowercased, which `updateSearchQuery` always
establishes. -/
theorem updateFilteredTools_matches_spec (catalog : List Tool) (fm : FilterState)
    (hq : jsToLower fm.searchQuery = fm.searchQuery) :
    (updateFilteredTools catalog fm).filteredTools
        = specVisibleList catalog fm.selectedTags fm.searchQuery
      ∧ ((updateFilteredTools catalog fm).filteredTools).Sublist catalog
      ∧ (fm.selectedTags = ∅ → fm.searchQuery = "" →
          (updateFilteredTools catalog fm).filteredTools = catalog) := by
  have hmain : (updateFilteredTools catalog fm).filteredTools
      = specVisibleList catalog fm.selectedTags fm.searchQuery := by
    unfold updateFilteredTools specVisibleList
    by_cases hsel : fm.selectedTags = ∅ <;> by_cases hq0 : fm.searchQuery = ""
    · simp [hsel, hq0, jsTruthy, List.filter_true]
    · have hqt : jsTruthy fm.searchQuery = true := jsTruthy_eq_true.mpr hq0
      simp [hsel, hqt, hq0, hq, specSearchKeep, Bool.true_and, List.filter_true]
    · have hcard : 0 < fm.selectedTags.card :=
        Finset.card_pos.mpr (Finset.nonempty_iff_ne_empty.mpr hsel)
      simp [hcard, hq0, jsTruthy, hsel, specTagKeep, Bool.and_true]
    · have hcard : 0 < fm.selectedTags.card :=
        Finset.card_pos.mpr (Finset.nonempty_iff_ne_empty.mpr hsel)
      have hqt : jsTruthy fm.searchQuery = true := jsTruthy_eq_true.mpr hq0
      simp only [hcard, hqt, hsel, hq0, gt_iff_lt, if_true, ne_eq,
        not_false_iff]
      rw [List.filter_filter]
      refine List.filter_congr ?_
      intro a _
      simp [specTagKeep, specSearchKeep, hq, Bool.and_comm]
  refine ⟨hmain, ?_, ?_⟩
  · rw [hmain]
    exact specVisibleList_sublist catalog fm.selectedTags fm.searchQuery
  · intro h1 h2
    rw [hmain, h1, h2, specVisibleList_trivial]

/-- Witness for C1 at the sample catalog with the "vpn" tag selected and
search text "privacy". -/
theorem updateFilteredTools_matches_spec_witness :
    jsToLower fmBoth.searchQuery = fmBoth.searchQuery
      ∧ ((updateFilteredTools catalogSample fmBoth).filteredTools
            = specVisibleList catalogSample fmBoth.selectedTags fmBoth.searchQuery
          ∧ ((updateFilteredTools catalogSample fmBoth).filteredTools).Sublist catalogSample
          ∧ (fmBoth.selectedTags = ∅ → fmBoth.searchQuery = "" →
              (updateFilteredTools catalogSample fmBoth).filteredTools = catalogSample)) :=
  ⟨by decide, updateFilteredTools_matches_spec catalogSample fmBoth (by decide)⟩

theorem toggleTag_selectedTags (catalog : List Tool) (fm : FilterState) (tag : String) :
    (toggleTag catalog fm tag).selectedTags = specToggle fm.selectedTags tag := rfl

/-- C8: `toggleTag` adds the tag if absent and removes it if present;
any sequence of `toggleTag` calls acts on the selected-tags set as the
fold of the symmetric add/remove step, and toggling the same tag twice
restores the original selected-tags set. -/
theorem toggleTag_toggle_spec :
    (∀ (catalog : List Tool) (fm : FilterState) (tag : String),
        tag ∉ fm.selectedTags →
        (toggleTag catalog fm tag).selectedTags = insert tag fm.selectedTags)
    ∧ (∀ (catalog : List Tool) (fm : FilterState) (tag : String),
        tag ∈ fm.selectedTags →
        (toggleTag catalog fm tag).selectedTags = fm.selectedTags.erase tag)
    ∧ (∀ (catalog : List Tool) (fm : FilterState) (tags : List String),
        (runToggles catalog fm tags).selectedTags
          = tags.foldl specToggle fm.selectedTags)
    ∧ (∀ (catalog : List Tool) (fm : FilterState) (tag : String),
        (toggleTag catalog (toggleTag catalog fm tag) tag).selectedTags
          = fm.selectedTags) := by
  refine ⟨?_, ?_, ?_, ?_⟩
  · intro catalog fm tag h
    rw [toggleTag_selectedTags]
    simp [specToggle, h]
  · intro catalog fm tag h
    rw [toggleTag_selectedTags]
    simp [specToggle, h]
  · intro catalog fm tags
    induction tags generalizing fm with
    | nil => rfl
    | cons t ts ih =>
      have hrun : runToggles catalog fm (t :: ts)
          = runToggles catalog (toggleTag catalog fm t) ts := rfl
      rw [hrun, ih, toggleTag_selectedTags]
      rfl
  · intro catalog fm tag
    rw [toggleTag_selectedTags, toggleTag_selectedTags]
    by_cases h : tag ∈ fm.selectedTags
    · have h1 : specToggle fm.selectedTags tag = fm.selectedTags.erase tag := by
        simp [specToggle, h]
      have h2 : tag ∉ fm.selectedTags.erase tag := Finset.not_mem_erase tag _
      rw [h1]
      simp only [specToggle, h2, if_neg]
      exact Finset.insert_erase h
    · have h1 : specToggle fm.selectedTags tag = insert tag fm.selectedTags := by
        simp [specToggle, h]
      have h2 : tag ∈ insert tag fm.selectedTags := Finset.mem_insert_self tag _
      rw [h1]
      simp only [specToggle, h2, if_pos]
      exact Finset.erase_insert h

/-- Witness for C8: toggling "vpn" adds it to an empty selection and
removes it from a selection containing it. -/
theorem toggleTag_toggle_spec_witness :
    ("vpn" ∉ fmEmpty.selectedTags
        ∧ (toggleTag catalogSample fmEmpty "vpn").selectedTags
            = insert "vpn" fmEmpty.selectedTags)
      ∧ ("vpn" ∈ fmVpn.selectedTags
        ∧ (toggleTag catalogSample fmVpn "vpn").selectedTags
            = fmVpn.selectedTags.erase "vpn") :=
  ⟨⟨by decide, toggleTag_toggle_spec.1 catalogSample fmEmpty "vpn" (by decide)⟩,
    ⟨by decide, toggleTag_toggle_spec.2.1 catalogSample fmVpn "vpn" (by decide)⟩⟩

/-- C9: from every filter state, `clearAllFilters` empties the selected
tags and the search text, and its recompute yields the full catalog in
original order. -/
theorem clearAllFilters_resets :
    ∀ (catalog : List Tool) (fm : FilterState),
      (clearAllFilters catalog fm).selectedTags = ∅
        ∧ (clearAllFilters catalog fm).searchQuery = ""
        ∧ (clearAllFilters catalog fm).filteredTools = catalog := by
  intro catalog fm
  refine ⟨rfl, rfl, ?_⟩
  simp [clearAllFilters, updateFilteredTools, jsTruthy]

/-- C10 counterexample: on a loaded catalog whose tag universe is
{"chat","e2e","logging-free","vpn"}, a single `toggleTag` with the tag
"zzz" puts "zzz" into the selected-tags set even though it is not in the
universe: the operations do not validate tag membership. -/
theorem selectedTags_universe_counterexample :
    "zzz" ∈ (toggleTag catalogSample fmEmpty "zzz").selectedTags
      ∧ "zzz" ∉ extractAllTags catalogSample := by decide

/-- C10 amended: after every sequence of `toggleTag`/`addTag`
operations whose tag arguments lie in the catalog's tag universe (as the
page's own UI guarantees), starting from a selection inside the
universe, every selected tag is in the universe. -/
theorem selectedTags_universe_invariant (catalog : List Tool) (fm : FilterState)
    (ops : List FilterOp)
    (hops : ∀ op ∈ ops, FilterOp.tagArg op ∈ extractAllTags catalog)
    (hfm : ∀ t ∈ fm.selectedTags, t ∈ extractAllTags catalog) :
    ∀ t ∈ (runFilterOps catalog fm ops).selectedTags, t ∈ extractAllTags catalog := by
  induction ops generalizing fm with
  | nil => exact hfm
  | cons op ops ih =>
    have hoptag : FilterOp.tagArg op ∈ extractAllTags catalog :=
      hops op (List.mem_cons_self op ops)
    have hstep : ∀ t ∈ (applyFilterOp catalog fm op).selectedTags,
        t ∈ extractAllTags catalog := by
      cases op with
      | toggle tag =>
        intro t htmem
        have hred : (applyFilterOp catalog fm (.toggle tag)).selectedTags
            = specToggle fm.selectedTags tag := rfl
        rw [hred] at htmem
        unfold specToggle at htmem
        by_cases h : tag ∈ fm.selectedTags
        · rw [if_pos h] at htmem
          exact hfm t (Finset.mem_of_mem_erase htmem)
        · rw [if_neg h] at htmem
          rcases Finset.mem_insert.mp htmem with h1 | h1
          · subst h1; exact hoptag
          · exact hfm t h1
      | add tag =>
        intro t htmem
        have hred : applyFilterOp catalog fm (.add tag) = addTag catalog fm tag := rfl
        rw [hred] at htmem
        unfold addTag at htmem
        by_cases h : (jsTruthy tag && !(decide (tag ∈ fm.selectedTags))) = true
        · rw [if_pos h] at htmem
          have hsel : (updateFilteredTools catalog
              { fm with selectedTags := insert tag fm.selectedTags }).selectedTags
                = insert tag fm.selectedTags := rfl
          rw [hsel] at htmem
          rcases Finset.mem_insert.mp htmem with h1 | h1
          · subst h1; exact hoptag
          · exact hfm t h1
        · rw [if_neg h] at htmem
          exact hfm t htmem
    have hrun : runFilterOps catalog fm (op :: ops)
        = runFilterOps catalog (applyFilterOp catalog fm op) ops := rfl
    rw [hrun]
    exact ih _ (fun op2 hmem => hops op2 (List.mem_cons_of_mem op hmem)) hstep

/-- Witness for the amended C10 at the sample catalog with an in-universe
toggle and add. -/
theorem selectedTags_universe_invariant_witness :
    (∀ op ∈ [FilterOp.toggle "vpn", FilterOp.add "chat"],
        FilterOp.tagArg op ∈ extractAllTags catalogSample)
      ∧ (∀ t ∈ fmEmpty.selectedTags, t ∈ extractAllTags catalogSample)
      ∧ (∀ t ∈ (runFilterOps catalogSample fmEmpty
            [FilterOp.toggle "vpn", FilterOp.add "chat"]).selectedTags,
          t ∈ extractAllTags catalogSample) :=
  ⟨by decide, by decide,
    selectedTags_universe_invariant catalogSample fmEmpty
      [FilterOp.toggle "vpn", FilterOp.add "chat"] (by decide) (by decide)⟩

end App
